import Mathlib

/-!
Verification of the ETL Orchestration & Graph-Load Engine
(src/synapse/spark-notebooks).

Shallow embedding of:
- the master orchestration pipeline runner
  (00_master_orchestration.py: run_notebook_with_logging, run_stage,
  the stage execution loop, the etl_metadata counters, final status block);
- the incremental-extraction query builder shared by the three
  ETL notebooks (01_patients_etl.py, 02_medications_etl.py,
  03_patient_medication_relationships.py: sql_query);
- the embedding enrichment function (generate_embedding in
  01_patients_etl.py and 02_medications_etl.py);
- the keyed idempotent upsert contract of the graph-database write calls
  (patients_neo4j.write, medications_neo4j.write, prescriptions_neo4j.write).

External collaborators (dbutils.notebook.run, the Azure OpenAI embedding
service, the Synapse warehouse, the Neo4j graph database) are modelled as
oracle parameters or, where the spec alone defines their contract, as
definitions marked "Modelled from the spec".
-/

/-! ## Data model: orchestration (00_master_orchestration.py) -/

/-- Entry of a stage's notebooks list (00_master_orchestration.py lines 57-65):
path, name, timeout. The per-notebook parameters dict only forwards the
global INCREMENTAL_MODE and LAST_RUN_TIMESTAMP strings; the orchestration
logic never reads it back, so it is left out of the record. -/
structure Notebook where
  path : String
  name : String
  timeout : Nat
deriving DecidableEq, Repr

/-- A stage of the etl_pipeline dict (00_master_orchestration.py lines 52-125):
description, parallel flag, ordered notebooks list. -/
structure StageConfig where
  description : String
  parallel : Bool
  notebooks : List Notebook
deriving DecidableEq, Repr

/-- The dict returned by run_notebook_with_logging as its middle component
(00_master_orchestration.py lines 167 and 176):
on success result is the notebook's exit value and error is None (none);
on failure result is None and error is the exception text. -/
structure RunOutput where
  result : Option String
  error : Option String
deriving DecidableEq, Repr

/-- One entry of a stage's results list
(00_master_orchestration.py lines 205-210 and 228-233). -/
structure NotebookResult where
  notebook : String
  success : Bool
  duration : Nat
  result : RunOutput
deriving DecidableEq, Repr

/-- One value of the pipeline_results dict
(00_master_orchestration.py lines 259-262). -/
structure StageResult where
  success : Bool
  results : List NotebookResult
deriving DecidableEq, Repr

/-- run_notebook_with_logging (00_master_orchestration.py lines 143-176).
The call to dbutils.notebook.run is the external collaborator; it is passed
as the oracle dbrun (Except.error models the raised exception caught by the
try/except), and the measured wall-clock duration as the oracle dur.
The try/except guarantees a (success, result-dict, duration) triple is
always returned. -/
def run_notebook_with_logging (dbrun : Notebook → Except String String)
    (dur : Notebook → Nat) (nb : Notebook) : Bool × RunOutput × Nat :=
  match dbrun nb with
  | Except.ok r => (true, ⟨some r, none⟩, dur nb)
  | Except.error e => (false, ⟨none, some e⟩, dur nb)

/-- The results-list entry built for one executed notebook
(00_master_orchestration.py lines 205-210 and 228-233). -/
def notebook_entry (dbrun : Notebook → Except String String)
    (dur : Notebook → Nat) (nb : Notebook) : NotebookResult :=
  { notebook := nb.name,
    success := (run_notebook_with_logging dbrun dur nb).1,
    duration := (run_notebook_with_logging dbrun dur nb).2.2,
    result := (run_notebook_with_logging dbrun dur nb).2.1 }

/-- The loop body of run_stage's "parallel" branch
(00_master_orchestration.py lines 197-217): despite the branch label it
iterates the notebooks one at a time in declared order, records a result
per attempted notebook, clears all_success on a failure, and breaks out of
the loop on failure when the stage is named "stage_1_entities". -/
def parallel_branch_loop (dbrun : Notebook → Except String String)
    (dur : Notebook → Nat) (stage_name : String) :
    List Notebook → Bool × List NotebookResult
  | [] => (true, [])
  | nb :: rest =>
    if (run_notebook_with_logging dbrun dur nb).1 then
      ((parallel_branch_loop dbrun dur stage_name rest).1,
        notebook_entry dbrun dur nb ::
          (parallel_branch_loop dbrun dur stage_name rest).2)
    else if stage_name = "stage_1_entities" then
      (false, [notebook_entry dbrun dur nb])
    else
      (false, notebook_entry dbrun dur nb ::
        (parallel_branch_loop dbrun dur stage_name rest).2)

/-- The loop body of run_stage's sequential branch
(00_master_orchestration.py lines 220-240), textually identical to the
"parallel" branch. -/
def sequential_branch_loop (dbrun : Notebook → Except String String)
    (dur : Notebook → Nat) (stage_name : String) :
    List Notebook → Bool × List NotebookResult
  | [] => (true, [])
  | nb :: rest =>
    if (run_notebook_with_logging dbrun dur nb).1 then
      ((sequential_branch_loop dbrun dur stage_name rest).1,
        notebook_entry dbrun dur nb ::
          (sequential_branch_loop dbrun dur stage_name rest).2)
    else if stage_name = "stage_1_entities" then
      (false, [notebook_entry dbrun dur nb])
    else
      (false, notebook_entry dbrun dur nb ::
        (sequential_branch_loop dbrun dur stage_name rest).2)

/-- run_stage (00_master_orchestration.py lines 178-242): chooses the
"parallel" branch when the stage's parallel flag and the global
PARALLEL_EXECUTION are both true, the sequential branch otherwise, and
returns (all_success, results). -/
def run_stage (PARALLEL_EXECUTION : Bool)
    (dbrun : Notebook → Except String String) (dur : Notebook → Nat)
    (stage_name : String) (stage_config : StageConfig) :
    Bool × List NotebookResult :=
  if stage_config.parallel && PARALLEL_EXECUTION then
    parallel_branch_loop dbrun dur stage_name stage_config.notebooks
  else
    sequential_branch_loop dbrun dur stage_name stage_config.notebooks

/-- The pipeline execution loop (00_master_orchestration.py lines 251-267):
stages run in declared order; each stage's (success, results) is stored in
pipeline_results under the stage name; on the first failed stage
pipeline_success is cleared and the loop breaks, so no later stage runs. -/
def pipeline_loop (PARALLEL_EXECUTION : Bool)
    (dbrun : Notebook → Except String String) (dur : Notebook → Nat) :
    List (String × StageConfig) → Bool × List (String × StageResult)
  | [] => (true, [])
  | (stage_name, stage_config) :: rest =>
    if (run_stage PARALLEL_EXECUTION dbrun dur stage_name stage_config).1 then
      ((pipeline_loop PARALLEL_EXECUTION dbrun dur rest).1,
        (stage_name,
          ⟨(run_stage PARALLEL_EXECUTION dbrun dur stage_name stage_config).1,
           (run_stage PARALLEL_EXECUTION dbrun dur stage_name stage_config).2⟩) ::
          (pipeline_loop PARALLEL_EXECUTION dbrun dur rest).2)
    else
      (false,
        [(stage_name,
          ⟨(run_stage PARALLEL_EXECUTION dbrun dur stage_name stage_config).1,
           (run_stage PARALLEL_EXECUTION dbrun dur stage_name stage_config).2⟩)])

/-- etl_metadata field "notebooks_executed"
(00_master_orchestration.py line 321). -/
def notebooks_executed (prs : List (String × StageResult)) : Nat :=
  (prs.map (fun s => s.2.results.length)).sum

/-- etl_metadata field "notebooks_succeeded"
(00_master_orchestration.py line 322). -/
def notebooks_succeeded (prs : List (String × StageResult)) : Nat :=
  (prs.map (fun s => (s.2.results.filter (fun nb => nb.success)).length)).sum

/-- etl_metadata field "notebooks_failed"
(00_master_orchestration.py line 323). -/
def notebooks_failed (prs : List (String × StageResult)) : Nat :=
  (prs.map (fun s => (s.2.results.filter (fun nb => !nb.success)).length)).sum

/-- etl_metadata field "status" (00_master_orchestration.py line 315). -/
def run_status (pipeline_success : Bool) : String :=
  if pipeline_success then "success" else "failed"

/-- The final status block (00_master_orchestration.py lines 380-395):
on success the run announces pipeline_end_time as the timestamp the next
incremental run should use; on failure it raises and the configured
LAST_SUCCESSFUL_RUN watermark (line 32) is left unchanged. -/
def next_incremental_run_timestamp (pipeline_success : Bool)
    (LAST_SUCCESSFUL_RUN pipeline_end_time : String) : String :=
  if pipeline_success then pipeline_end_time else LAST_SUCCESSFUL_RUN

/-! ## Data model: extraction (sql_query in 01/02/03) -/

/-- A source-table row as seen by the WHERE clause of sql_query: only the
two timestamp columns take part in row selection. Timestamps are the SQL
datetime literals of the code, written "YYYY-MM-DD HH:MM:SS", on which
lexicographic string order coincides with chronological order. -/
structure SourceRow where
  last_modified : String
  created_at : String
deriving DecidableEq, Repr

/-- The WHERE clause of the two sql_query string templates: the incremental
template carries the interpolated watermark literal, the full template has
no WHERE clause. -/
inductive SelectionPredicate where
  | allRows : SelectionPredicate
  | modifiedOrCreatedAfter (watermark : String) : SelectionPredicate
deriving DecidableEq, Repr

/-- The inner SELECT built by sql_query: source table plus WHERE clause.
The column lists are glue and are not modelled. -/
structure SqlQuery where
  table : String
  wherePred : SelectionPredicate
deriving DecidableEq, Repr

/-- Lexicographic comparison of character lists by code point, the order
the warehouse applies to the fixed-format "YYYY-MM-DD HH:MM:SS" literals
the code splices into its WHERE clauses (on that format, lexicographic and
chronological order agree). -/
def charListLt : List Char → List Char → Bool
  | [], [] => false
  | [], _ :: _ => true
  | _ :: _, [] => false
  | a :: as, b :: bs =>
    if a.toNat < b.toNat then true
    else if b.toNat < a.toNat then false
    else charListLt as bs

/-- The SQL comparison column > literal on timestamp strings. -/
def timestampGt (a b : String) : Bool := charListLt b.data a.data

/-- Row-level meaning of the WHERE clause: no WHERE clause selects every
row; the incremental clause selects a row when
last_modified > watermark OR created_at > watermark. -/
def rowMatches : SelectionPredicate → SourceRow → Bool
  | SelectionPredicate.allRows, _ => true
  | SelectionPredicate.modifiedOrCreatedAfter w, r =>
      timestampGt r.last_modified w || timestampGt r.created_at w

/-- Warehouse evaluation of a query over the rows of its source table:
the rows satisfying the WHERE clause, in table order. -/
def runQuery (q : SqlQuery) (tableRows : List SourceRow) : List SourceRow :=
  tableRows.filter (rowMatches q.wherePred)

/-- sql_query of 01_patients_etl.py (lines 72-149): branch on
INCREMENTAL_MODE; the incremental branch interpolates LAST_RUN_TIMESTAMP
into last_modified > '...' OR created_at > '...'; the full branch selects
the whole table. -/
def patients_sql_query (INCREMENTAL_MODE : Bool)
    (LAST_RUN_TIMESTAMP : String) : SqlQuery :=
  if INCREMENTAL_MODE then
    { table := "healthcare_fhir.patients",
      wherePred := SelectionPredicate.modifiedOrCreatedAfter LAST_RUN_TIMESTAMP }
  else
    { table := "healthcare_fhir.patients",
      wherePred := SelectionPredicate.allRows }

/-- sql_query of 02_medications_etl.py (lines 64-121), identical in shape
to the patients query but over healthcare_fhir.medications. -/
def medications_sql_query (INCREMENTAL_MODE : Bool)
    (LAST_RUN_TIMESTAMP : String) : SqlQuery :=
  if INCREMENTAL_MODE then
    { table := "healthcare_fhir.medications",
      wherePred := SelectionPredicate.modifiedOrCreatedAfter LAST_RUN_TIMESTAMP }
  else
    { table := "healthcare_fhir.medications",
      wherePred := SelectionPredicate.allRows }

/-- sql_query of 03_patient_medication_relationships.py (lines 56-129),
identical in shape over healthcare_fhir.prescriptions. -/
def prescriptions_sql_query (INCREMENTAL_MODE : Bool)
    (LAST_RUN_TIMESTAMP : String) : SqlQuery :=
  if INCREMENTAL_MODE then
    { table := "healthcare_fhir.prescriptions",
      wherePred := SelectionPredicate.modifiedOrCreatedAfter LAST_RUN_TIMESTAMP }
  else
    { table := "healthcare_fhir.prescriptions",
      wherePred := SelectionPredicate.allRows }

/-- Python f-string rendering of a possibly absent LAST_RUN_TIMESTAMP
value at the point it is spliced into the incremental sql_query template:
a present value renders as itself, an absent value (Python None) renders
as the literal "None". The code has no branch for the absent case
(01_patients_etl.py line 56 and 00_master_orchestration.py line 32 supply
the value; sql_query at lines 72-111 splices it unconditionally). -/
def formatLastRunTimestamp : Option String → String
  | some ts => ts
  | none => "None"

/-! ## Data model: embedding enrichment (generate_embedding in 01/02) -/

/-- Outcome of one call to the Azure OpenAI embedding service as observed
through requests.post + raise_for_status + JSON extraction: either an
embedding vector, or a failure of any kind (timeout, error response,
malformed body), which in the code surfaces as a raised exception.
Vector components are modelled as rationals; no arithmetic is done on
them. -/
inductive EmbeddingServiceResponse where
  | ok (embedding : List ℚ) : EmbeddingServiceResponse
  | failure (error : String) : EmbeddingServiceResponse

/-- generate_embedding (01_patients_etl.py lines 172-199, and the verbatim
copy at 02_medications_etl.py lines 143-167). Empty or whitespace-only
text returns the zero vector of length 1536 before any service call; the
service is otherwise called on the text truncated to its first 8000
characters; the try/except turns every service failure into the zero
vector of length 1536, so the function always returns a vector. -/
def generate_embedding (service : String → EmbeddingServiceResponse)
    (text : String) : List ℚ :=
  if text = "" ∨ text.trim = "" then
    List.replicate 1536 0
  else
    match service (text.take 8000) with
    | EmbeddingServiceResponse.ok embedding => embedding
    | EmbeddingServiceResponse.failure _ => List.replicate 1536 0

/-! ## Data model: keyed upsert into the graph (writes in 01/02/03) -/

/-- Node properties as a name-to-value association list, the shape the
Neo4j write call receives from the transformed dataframe. -/
def PropMap : Type := List (String × String)

instance : DecidableEq PropMap := by
  unfold PropMap; exact inferInstance

/-- The node.keys option of patients_neo4j.write
(01_patients_etl.py line 315). -/
def patients_node_keys : List String := ["id", "mrn"]

/-- The node.keys option of medications_neo4j.write
(02_medications_etl.py line 258). -/
def medications_node_keys : List String := ["id", "rxNormCode"]

/-- Projection of a record onto the declared key fields: the identity a
node write is keyed by. -/
def node_key_values (keyFields : List String) (props : PropMap) :
    List (Option String) :=
  keyFields.map (fun k => props.lookup k)

/-- A PRESCRIBED relationship row as shaped by prescriptions_neo4j
(03_patient_medication_relationships.py lines 154-200 and the write
options at lines 222-234): relationship type, source node key value
(source.id), target node key value (target.id), and the rel.* properties. -/
structure TargetRelationship where
  relType : String
  sourceKey : String
  targetKey : String
  props : List (String × String)
deriving DecidableEq, Repr

/-- Upsert identity of a relationship write with
relationship.save.strategy = keys: the (type, sourceKey, targetKey)
triple. -/
def relationship_key (r : TargetRelationship) : String × String × String :=
  (r.relType, r.sourceKey, r.targetKey)

/-- Modelled from the spec: the graph database's keyed upsert write API
(spec sections 4.3 and 6; glossary entry Upsert), which the repository
reaches only through the Neo4j Spark connector options
(mode Overwrite, node.keys / relationship.save.strategy = keys) in
01_patients_etl.py lines 309-316, 02_medications_etl.py lines 253-259 and
03_patient_medication_relationships.py lines 222-234; the connector itself
is not part of the repository. A record whose key matches an existing
entry updates that entry in place with the record's properties; otherwise
the record is appended as a new entry. -/
def upsertKeyed {α : Type} {κ : Type} [DecidableEq κ] (key : α → κ)
    (store : List α) (x : α) : List α :=
  if store.any (fun y => decide (key y = key x)) then
    store.map (fun y => if key y = key x then x else y)
  else
    store ++ [x]

/-- Modelled from the spec: a batch write is the record-by-record keyed
upsert of the batch into the store (spec section 5: convergent upserts
tolerate at-least-once delivery). -/
def writeKeyed {α : Type} {κ : Type} [DecidableEq κ] (key : α → κ)
    (store : List α) (batch : List α) : List α :=
  batch.foldl (upsertKeyed key) store

/-! ## Helper lemmas -/

/-- The duplicated loop bodies of run_stage's two branches compute the same
value. -/
theorem parallel_loop_eq_sequential_loop
    (dbrun : Notebook → Except String String) (dur : Notebook → Nat)
    (stage_name : String) (l : List Notebook) :
    parallel_branch_loop dbrun dur stage_name l
      = sequential_branch_loop dbrun dur stage_name l := by
  induction l with
  | nil => rfl
  | cons nb rest ih =>
      simp only [parallel_branch_loop, sequential_branch_loop, ih]

/-- run_stage always computes the sequential loop, whichever branch is
taken. -/
theorem run_stage_eq_sequential (PARALLEL_EXECUTION : Bool)
    (dbrun : Notebook → Except String String) (dur : Notebook → Nat)
    (stage_name : String) (stage_config : StageConfig) :
    run_stage PARALLEL_EXECUTION dbrun dur stage_name stage_config
      = sequential_branch_loop dbrun dur stage_name stage_config.notebooks := by
  unfold run_stage
  by_cases h : (stage_config.parallel && PARALLEL_EXECUTION) = true
  · simp [h, parallel_loop_eq_sequential_loop]
  · simp [h]

/-- A stage whose name is not the critical literal records one result per
notebook of the stage: no notebook is skipped. -/
theorem sequential_loop_length_of_noncritical
    (dbrun : Notebook → Except String String) (dur : Notebook → Nat)
    (stage_name : String) (h : stage_name ≠ "stage_1_entities")
    (l : List Notebook) :
    (sequential_branch_loop dbrun dur stage_name l).2.length = l.length := by
  induction l with
  | nil => rfl
  | cons nb rest ih =>
      by_cases hs : (run_notebook_with_logging dbrun dur nb).1 = true
      · simp [sequential_branch_loop, hs, ih]
      · simp [sequential_branch_loop, hs, h, ih]

/-- The stage success flag equals the conjunction of the recorded results'
success flags. -/
theorem sequential_loop_success_eq_all
    (dbrun : Notebook → Except String String) (dur : Notebook → Nat)
    (stage_name : String) (l : List Notebook) :
    (sequential_branch_loop dbrun dur stage_name l).1
      = (sequential_branch_loop dbrun dur stage_name l).2.all
          (fun r => r.success) := by
  induction l with
  | nil => rfl
  | cons nb rest ih =>
      by_cases hs : (run_notebook_with_logging dbrun dur nb).1 = true
      · simp [sequential_branch_loop, hs, notebook_entry, ih]
      · by_cases hc : stage_name = "stage_1_entities"
        · simp [sequential_branch_loop, hs, hc, notebook_entry]
        · simp [sequential_branch_loop, hs, hc, notebook_entry]

/-- Partition of a list's length by a Boolean predicate. -/
theorem filter_length_partition {α : Type} (p : α → Bool) (l : List α) :
    (l.filter p).length + (l.filter (fun a => !p a)).length = l.length := by
  induction l with
  | nil => rfl
  | cons a l ih =>
      by_cases h : p a = true
      · simp [List.filter_cons, h]
        omega
      · simp [List.filter_cons, h]
        omega

/-- A results list has no failed entry exactly when all entries succeeded. -/
theorem failed_count_zero_iff_all (l : List NotebookResult) :
    (l.filter (fun r => !r.success)).length = 0
      ↔ l.all (fun r => r.success) = true := by
  induction l with
  | nil => simp
  | cons r rest ih =>
      by_cases h : r.success = true
      · simp [List.filter_cons, h, ih]
      · simp [List.filter_cons, h]

/-- In the critical stage, once every notebook before nb succeeded and nb
fails, the loop records exactly the results of those notebooks and of nb,
returns all_success = false, and never reaches the notebooks after nb. -/
theorem sequential_loop_critical_break
    (dbrun : Notebook → Except String String) (dur : Notebook → Nat)
    (pre post : List Notebook) (nb : Notebook)
    (hpre : ∀ m ∈ pre, (run_notebook_with_logging dbrun dur m).1 = true)
    (hfail : (run_notebook_with_logging dbrun dur nb).1 = false) :
    sequential_branch_loop dbrun dur "stage_1_entities" (pre ++ nb :: post)
      = (false,
          pre.map (notebook_entry dbrun dur) ++ [notebook_entry dbrun dur nb]) := by
  induction pre with
  | nil => simp [sequential_branch_loop, hfail]
  | cons m pre ih =>
      have hm : (run_notebook_with_logging dbrun dur m).1 = true :=
        hpre m (List.mem_cons_self m pre)
      have ih' := ih (fun x hx => hpre x (List.mem_cons_of_mem m hx))
      simp [sequential_branch_loop, hm, ih']

/-- The pipeline loop stops at the first failed stage: that stage is the
last entry of pipeline_results, the overall success flag is false, and no
later stage is entered. -/
theorem pipeline_loop_stops_on_failure (PARALLEL_EXECUTION : Bool)
    (dbrun : Notebook → Except String String) (dur : Notebook → Nat)
    (stage_name : String) (stage_config : StageConfig)
    (rest : List (String × StageConfig))
    (hfail :
      (run_stage PARALLEL_EXECUTION dbrun dur stage_name stage_config).1
        = false) :
    pipeline_loop PARALLEL_EXECUTION dbrun dur ((stage_name, stage_config) :: rest)
      = (false,
          [(stage_name,
            ⟨false,
             (run_stage PARALLEL_EXECUTION dbrun dur stage_name stage_config).2⟩)]) := by
  simp [pipeline_loop, hfail]

/-- The overall pipeline success flag is true exactly when no recorded
notebook result failed. -/
theorem pipeline_success_iff_no_failed (PARALLEL_EXECUTION : Bool)
    (dbrun : Notebook → Except String String) (dur : Notebook → Nat)
    (stages : List (String × StageConfig)) :
    (pipeline_loop PARALLEL_EXECUTION dbrun dur stages).1 = true
      ↔ notebooks_failed (pipeline_loop PARALLEL_EXECUTION dbrun dur stages).2
          = 0 := by
  induction stages with
  | nil => simp [pipeline_loop, notebooks_failed]
  | cons s rest ih =>
      obtain ⟨stage_name, stage_config⟩ := s
      have hall :
          (run_stage PARALLEL_EXECUTION dbrun dur stage_name stage_config).1
            = (run_stage PARALLEL_EXECUTION dbrun dur stage_name stage_config).2.all
                (fun r => r.success) := by
        rw [run_stage_eq_sequential]
        exact sequential_loop_success_eq_all dbrun dur stage_name
          stage_config.notebooks
      by_cases hs :
          (run_stage PARALLEL_EXECUTION dbrun dur stage_name stage_config).1
            = true
      · have hzero :
            ((run_stage PARALLEL_EXECUTION dbrun dur stage_name
                stage_config).2.filter (fun r => !r.success)).length = 0 := by
          rw [failed_count_zero_iff_all]
          rw [← hall]
          exact hs
        simp [pipeline_loop, hs, notebooks_failed, hzero] at *
        exact ih
      · have hfail :
            (run_stage PARALLEL_EXECUTION dbrun dur stage_name stage_config).1
              = false := by
          revert hs
          cases (run_stage PARALLEL_EXECUTION dbrun dur stage_name
            stage_config).1 <;> simp
        have hnz :
            ((run_stage PARALLEL_EXECUTION dbrun dur stage_name
                stage_config).2.filter (fun r => !r.success)).length ≠ 0 := by
          intro h0
          rw [failed_count_zero_iff_all] at h0
          rw [← hall] at h0
          rw [hfail] at h0
          exact Bool.false_ne_true h0
        rw [pipeline_loop_stops_on_failure PARALLEL_EXECUTION dbrun dur
          stage_name stage_config rest hfail]
        simp only [notebooks_failed, List.map_cons, List.map_nil,
          List.sum_cons, List.sum_nil, Nat.add_zero]
        constructor
        · intro h
          simp at h
        · intro h
          exact absurd h hnz

/-- A store holds a record with a given key exactly when the filter on that
key is nonempty. -/
theorem any_key_iff_filter_ne_nil {α κ : Type} [DecidableEq κ] (key : α → κ)
    (store : List α) (k : κ) :
    store.any (fun y => decide (key y = k)) = true
      ↔ (store.filter (fun y => decide (key y = k))).length ≠ 0 := by
  rw [List.any_eq_true, Ne, List.length_eq_zero, List.filter_eq_nil_iff]
  simp

/-- Replacing every key-matching record by a record of the same key leaves
the number of key-matching records unchanged. -/
theorem replace_preserves_key_count {α κ : Type} [DecidableEq κ]
    (key : α → κ) (store : List α) (x : α) :
    ((store.map (fun y => if key y = key x then x else y)).filter
        (fun y => decide (key y = key x))).length
      = (store.filter (fun y => decide (key y = key x))).length := by
  induction store with
  | nil => rfl
  | cons z store ih =>
      by_cases h : key z = key x
      · simp [List.filter_cons, h, ih]
      · simp [List.filter_cons, h, ih]

/-- After one keyed upsert into a store holding at most one record of the
key, the store holds exactly one record of that key. -/
theorem upsertKeyed_key_count {α κ : Type} [DecidableEq κ] (key : α → κ)
    (store : List α) (x : α)
    (hu : (store.filter (fun y => decide (key y = key x))).length ≤ 1) :
    ((upsertKeyed key store x).filter
        (fun y => decide (key y = key x))).length = 1 := by
  unfold upsertKeyed
  by_cases hany : store.any (fun y => decide (key y = key x)) = true
  · rw [if_pos hany, replace_preserves_key_count]
    have := (any_key_iff_filter_ne_nil key store (key x)).mp hany
    omega
  · have h0 : (store.filter (fun y => decide (key y = key x))).length = 0 := by
      by_contra hne
      exact hany ((any_key_iff_filter_ne_nil key store (key x)).mpr hne)
    have hsnil : store.filter (fun y => decide (key y = key x)) = [] :=
      List.length_eq_zero.mp h0
    rw [if_neg hany, List.filter_append, hsnil]
    simp

/-- Every record of the upserted key found after a keyed upsert is the
record just written: the write updates in place, never duplicates. -/
theorem upsertKeyed_latest {α κ : Type} [DecidableEq κ] (key : α → κ)
    (store : List α) (x : α) :
    ∀ y ∈ upsertKeyed key store x, key y = key x → y = x := by
  intro y hy hk
  unfold upsertKeyed at hy
  by_cases hany : store.any (fun y => decide (key y = key x)) = true
  · rw [if_pos hany] at hy
    obtain ⟨z, hz, rfl⟩ := List.mem_map.mp hy
    by_cases h : key z = key x
    · simp [h]
    · rw [if_neg h] at hk ⊢
      exact absurd hk h
  · rw [if_neg hany] at hy
    rcases List.mem_append.mp hy with hin | hx
    · exfalso
      apply hany
      rw [List.any_eq_true]
      exact ⟨y, hin, by simp [hk]⟩
    · simpa using hx

/-- Writing a record and then a record of the same key into a store that
held at most one record of that key leaves exactly one record of the key,
and that record carries the later properties. -/
theorem writeKeyed_twice_single {α κ : Type} [DecidableEq κ] (key : α → κ)
    (store : List α) (x x' : α)
    (hk : key x' = key x)
    (hu : (store.filter (fun y => decide (key y = key x))).length ≤ 1) :
    ((writeKeyed key store [x, x']).filter
        (fun y => decide (key y = key x))).length = 1
    ∧ ∀ y ∈ writeKeyed key store [x, x'], key y = key x → y = x' := by
  have h1 := upsertKeyed_key_count key store x hu
  have hstep : writeKeyed key store [x, x']
      = upsertKeyed key (upsertKeyed key store x) x' := rfl
  constructor
  · rw [hstep]
    have h2 := upsertKeyed_key_count key (upsertKeyed key store x) x'
      (by simp only [hk]; omega)
    simp only [hk] at h2
    exact h2
  · intro y hy hky
    rw [hstep] at hy
    exact upsertKeyed_latest key (upsertKeyed key store x) x' y hy
      (by rw [hk]; exact hky)

/-- notebooks_succeeded and notebooks_failed partition notebooks_executed
for any pipeline_results value. -/
theorem counts_partition (prs : List (String × StageResult)) :
    notebooks_succeeded prs + notebooks_failed prs = notebooks_executed prs := by
  induction prs with
  | nil => rfl
  | cons s rest ih =>
      have h := filter_length_partition
        (fun nb : NotebookResult => nb.success) s.2.results
      simp only [notebooks_succeeded, notebooks_failed, notebooks_executed,
        List.map_cons, List.sum_cons] at *
      omega

/-- The persisted status string is "success" exactly when the pipeline
success flag is true. -/
theorem run_status_success_iff (b : Bool) :
    run_status b = "success" ↔ b = true := by
  cases b <;> simp [run_status]

/-- notebooks_failed is zero exactly when every recorded unit result
succeeded. -/
theorem notebooks_failed_zero_iff (prs : List (String × StageResult)) :
    notebooks_failed prs = 0
      ↔ ∀ s ∈ prs, ∀ r ∈ s.2.results, r.success = true := by
  unfold notebooks_failed
  rw [List.sum_eq_zero_iff]
  constructor
  · intro h s hs r hr
    have h0 := h _ (List.mem_map_of_mem _ hs)
    rw [failed_count_zero_iff_all, List.all_eq_true] at h0
    exact h0 r hr
  · intro h x hx
    obtain ⟨s, hs, rfl⟩ := List.mem_map.mp hx
    rw [failed_count_zero_iff_all, List.all_eq_true]
    exact h s hs

/-! ## Concrete fixtures for witnesses and counterexamples -/

/-- A constant duration oracle for concrete runs. -/
def demo_dur : Notebook → Nat := fun _ => 7

/-- The patients notebook entry of stage_1_entities
(00_master_orchestration.py lines 57-65). -/
def patients_notebook : Notebook :=
  ⟨"/arthur-health/01_patients_etl", "patients", 3600⟩

/-- The medications notebook entry of stage_1_entities
(00_master_orchestration.py lines 66-74). -/
def medications_notebook : Notebook :=
  ⟨"/arthur-health/02_medications_etl", "medications", 3600⟩

/-- A third entity notebook, as sketched in the commented-out entries of
stage_1_entities. -/
def providers_notebook : Notebook :=
  ⟨"/arthur-health/03_providers_etl", "providers", 3600⟩

/-- The relationships notebook entry of stage_2_relationships
(00_master_orchestration.py lines 94-102). -/
def relationships_notebook : Notebook :=
  ⟨"/arthur-health/03_patient_medication_relationships",
    "patient_medication_relationships", 3600⟩

/-- A validation notebook for stage_3_validation, as sketched in the
commented-out entry of that stage. -/
def validation_notebook : Notebook :=
  ⟨"/arthur-health/data_quality_validation", "data_quality", 1800⟩

/-- The stage_2_relationships configuration
(00_master_orchestration.py lines 90-111). -/
def demo_stage2 : StageConfig :=
  ⟨"Create relationships between entities (requires stage 1 complete)",
    true, [relationships_notebook]⟩

/-- The stage_3_validation configuration with its sketched notebook
(00_master_orchestration.py lines 112-124). -/
def demo_stage3 : StageConfig :=
  ⟨"Data quality validation and gap detection", false, [validation_notebook]⟩

/-- An execution oracle under which only the relationships notebook
fails. -/
def rel_fail_dbrun : Notebook → Except String String :=
  fun nb =>
    if nb.name = "patient_medication_relationships" then
      Except.error "LoadError: write rejected"
    else Except.ok "ok"

/-- An execution oracle under which only the patients notebook fails. -/
def patients_fail_dbrun : Notebook → Except String String :=
  fun nb =>
    if nb.name = "patients" then
      Except.error "ExtractionError: connection refused"
    else Except.ok "ok"

/-- A patient record as shaped for the Neo4j node write. -/
def demo_patient : PropMap :=
  [("id", "PAT-001"), ("mrn", "MRN-9"), ("firstName", "Ada")]

/-- The same patient re-extracted later with updated properties and the
same key values. -/
def demo_patient_updated : PropMap :=
  [("id", "PAT-001"), ("mrn", "MRN-9"), ("firstName", "Grace")]

/-- A PRESCRIBED relationship row as shaped for the Neo4j relationship
write. -/
def demo_prescription : TargetRelationship :=
  ⟨"PRESCRIBED", "PAT-001", "MED-042", [("rel.dosage", "10mg")]⟩

/-- The same prescription re-extracted later with updated properties and
the same (type, sourceKey, targetKey). -/
def demo_prescription_updated : TargetRelationship :=
  ⟨"PRESCRIBED", "PAT-001", "MED-042", [("rel.dosage", "20mg")]⟩

/-! ## Claim theorems -/

/-- Claim C1, counterexample to the claim as stated: with the
stage_2_relationships notebook failing (a non-critical stage) followed by
a stage_3_validation stage, the run ends Failed but the later stage is NOT
executed — pipeline_results contains only the failed stage, because the
pipeline execution loop breaks on any failed stage. -/
theorem noncritical_stage_failure_cex :
    (pipeline_loop false rel_fail_dbrun demo_dur
        [("stage_2_relationships", demo_stage2),
         ("stage_3_validation", demo_stage3)]).1 = false
    ∧ ((pipeline_loop false rel_fail_dbrun demo_dur
        [("stage_2_relationships", demo_stage2),
         ("stage_3_validation", demo_stage3)]).2.map Prod.fst)
      = ["stage_2_relationships"] := by
  decide

/-- Claim C1 (amended): if a unit in a non-critical stage fails, the
remaining units of that same stage still execute (one result is recorded
per unit of the stage, none skipped) and the overall run status ends
Failed; but the pipeline loop stops after the failed stage, so subsequent
stages are not executed: the failed stage is the last entry of
pipeline_results. -/
theorem noncritical_stage_failure_behavior (PARALLEL_EXECUTION : Bool)
    (dbrun : Notebook → Except String String) (dur : Notebook → Nat)
    (stage_name : String) (stage_config : StageConfig)
    (rest : List (String × StageConfig))
    (hnc : stage_name ≠ "stage_1_entities")
    (hfail :
      (run_stage PARALLEL_EXECUTION dbrun dur stage_name stage_config).1
        = false) :
    (run_stage PARALLEL_EXECUTION dbrun dur stage_name stage_config).2.length
      = stage_config.notebooks.length
    ∧ pipeline_loop PARALLEL_EXECUTION dbrun dur
        ((stage_name, stage_config) :: rest)
      = (false,
          [(stage_name,
            ⟨false,
             (run_stage PARALLEL_EXECUTION dbrun dur stage_name
               stage_config).2⟩)]) := by
  constructor
  · rw [run_stage_eq_sequential]
    exact sequential_loop_length_of_noncritical dbrun dur stage_name hnc
      stage_config.notebooks
  · exact pipeline_loop_stops_on_failure PARALLEL_EXECUTION dbrun dur
      stage_name stage_config rest hfail

/-- Witness for the amended Claim C1 at a concrete run: the failing
non-critical relationships stage records a result for its one unit and
the pipeline stops there with status Failed. -/
theorem noncritical_stage_failure_behavior_witness :
    (run_stage false rel_fail_dbrun demo_dur "stage_2_relationships"
        demo_stage2).2.length = demo_stage2.notebooks.length
    ∧ pipeline_loop false rel_fail_dbrun demo_dur
        [("stage_2_relationships", demo_stage2),
         ("stage_3_validation", demo_stage3)]
      = (false,
          [("stage_2_relationships",
            ⟨false,
             (run_stage false rel_fail_dbrun demo_dur "stage_2_relationships"
               demo_stage2).2⟩)]) :=
  noncritical_stage_failure_behavior false rel_fail_dbrun demo_dur
    "stage_2_relationships" demo_stage2 [("stage_3_validation", demo_stage3)]
    (by decide) (by decide)

/-- Claim C2 (confirmed): in the critical stage — the stage the code
identifies by the literal name "stage_1_entities" — the first unit failure
breaks the unit loop: the remaining units of the stage are never executed
and receive no result entry (recorded, by absence, as not attempted), the
stage returns all_success = false, and the pipeline loop then stops
without starting any subsequent stage, so the run ends Failed. -/
theorem critical_stage_fail_fast (PARALLEL_EXECUTION : Bool)
    (dbrun : Notebook → Except String String) (dur : Notebook → Nat)
    (description : String) (par : Bool)
    (pre post : List Notebook) (nb : Notebook)
    (rest : List (String × StageConfig))
    (hpre : ∀ m ∈ pre, (run_notebook_with_logging dbrun dur m).1 = true)
    (hfail : (run_notebook_with_logging dbrun dur nb).1 = false) :
    run_stage PARALLEL_EXECUTION dbrun dur "stage_1_entities"
        ⟨description, par, pre ++ nb :: post⟩
      = (false,
          pre.map (notebook_entry dbrun dur) ++ [notebook_entry dbrun dur nb])
    ∧ pipeline_loop PARALLEL_EXECUTION dbrun dur
        (("stage_1_entities", ⟨description, par, pre ++ nb :: post⟩) :: rest)
      = (false,
          [("stage_1_entities",
            ⟨false,
             pre.map (notebook_entry dbrun dur)
               ++ [notebook_entry dbrun dur nb]⟩)]) := by
  have h1 : run_stage PARALLEL_EXECUTION dbrun dur "stage_1_entities"
      ⟨description, par, pre ++ nb :: post⟩
      = (false,
          pre.map (notebook_entry dbrun dur)
            ++ [notebook_entry dbrun dur nb]) := by
    rw [run_stage_eq_sequential]
    exact sequential_loop_critical_break dbrun dur pre post nb hpre hfail
  refine ⟨h1, ?_⟩
  have h2 := pipeline_loop_stops_on_failure PARALLEL_EXECUTION dbrun dur
    "stage_1_entities" ⟨description, par, pre ++ nb :: post⟩ rest
    (by rw [h1])
  rw [h1] at h2
  exact h2

/-- Witness for Claim C2 at the concrete critical stage [patients,
medications, providers] with patients failing: only patients gets a
result, medications and providers are skipped, and the pipeline stops
before stage_2_relationships with status Failed. -/
theorem critical_stage_fail_fast_witness :
    run_stage false patients_fail_dbrun demo_dur "stage_1_entities"
        ⟨"Load entity nodes (can run in parallel)", true,
          [] ++ patients_notebook :: [medications_notebook, providers_notebook]⟩
      = (false,
          List.map (notebook_entry patients_fail_dbrun demo_dur) []
            ++ [notebook_entry patients_fail_dbrun demo_dur patients_notebook])
    ∧ pipeline_loop false patients_fail_dbrun demo_dur
        [("stage_1_entities",
          ⟨"Load entity nodes (can run in parallel)", true,
            [] ++ patients_notebook
              :: [medications_notebook, providers_notebook]⟩),
         ("stage_2_relationships", demo_stage2)]
      = (false,
          [("stage_1_entities",
            ⟨false,
             List.map (notebook_entry patients_fail_dbrun demo_dur) []
               ++ [notebook_entry patients_fail_dbrun demo_dur
                    patients_notebook]⟩)]) :=
  critical_stage_fail_fast false patients_fail_dbrun demo_dur
    "Load entity nodes (can run in parallel)" true
    [] [medications_notebook, providers_notebook] patients_notebook
    [("stage_2_relationships", demo_stage2)]
    (by intro m hm; simp at hm) (by decide)

/-- Claim C3 (confirmed): for every watermark, the incremental-mode query
of the patients and the medications notebooks selects exactly the rows
with last_modified > watermark OR created_at > watermark, and the
full-mode query selects all rows of the source table regardless of the
watermark. -/
theorem extraction_predicate_exact (LAST_RUN_TIMESTAMP : String)
    (rows : List SourceRow) :
    runQuery (patients_sql_query true LAST_RUN_TIMESTAMP) rows
      = rows.filter (fun r =>
          timestampGt r.last_modified LAST_RUN_TIMESTAMP
            || timestampGt r.created_at LAST_RUN_TIMESTAMP)
    ∧ runQuery (patients_sql_query false LAST_RUN_TIMESTAMP) rows = rows
    ∧ runQuery (medications_sql_query true LAST_RUN_TIMESTAMP) rows
      = rows.filter (fun r =>
          timestampGt r.last_modified LAST_RUN_TIMESTAMP
            || timestampGt r.created_at LAST_RUN_TIMESTAMP)
    ∧ runQuery (medications_sql_query false LAST_RUN_TIMESTAMP) rows
        = rows := by
  refine ⟨rfl, ?_, rfl, ?_⟩ <;>
    simp [runQuery, patients_sql_query, medications_sql_query, rowMatches]

/-- Claim C4 (confirmed): whenever the embedding-service call made on the
truncated input fails in any way, generate_embedding returns the all-zero
fallback vector of the fixed dimension 1536; the try/except absorbs the
failure inside the function, which always returns a vector, so the failure
never propagates to the calling unit. -/
theorem embedding_service_failure_fallback
    (service : String → EmbeddingServiceResponse) (text err : String)
    (hfail :
      service (text.take 8000) = EmbeddingServiceResponse.failure err) :
    generate_embedding service text = List.replicate 1536 0 := by
  unfold generate_embedding
  by_cases h : text = "" ∨ text.trim = ""
  · rw [if_pos h]
  · rw [if_neg h, hfail]

/-- Witness for Claim C4: a service that times out on every input makes
generate_embedding return the 1536-dimensional zero vector on "hello". -/
theorem embedding_service_failure_fallback_witness :
    generate_embedding (fun _ => EmbeddingServiceResponse.failure "timeout")
        "hello" = List.replicate 1536 0 :=
  embedding_service_failure_fallback
    (fun _ => EmbeddingServiceResponse.failure "timeout") "hello" "timeout"
    rfl

/-- Claim C5 (confirmed): for empty or whitespace-only text,
generate_embedding returns the all-zero vector of the fixed dimension 1536
and its value does not depend on the embedding service in any way — the
empty-input branch returns before the request is ever built, modelled here
as invariance under arbitrary change of the service oracle. -/
theorem empty_text_zero_vector_without_service_call
    (service service' : String → EmbeddingServiceResponse) (text : String)
    (hws : text = "" ∨ text.trim = "") :
    generate_embedding service text = List.replicate 1536 0
    ∧ generate_embedding service text = generate_embedding service' text := by
  unfold generate_embedding
  rw [if_pos hws, if_pos hws]
  exact ⟨rfl, rfl⟩

/-- Witness for Claim C5 on the empty input: the zero vector comes back
under a healthy service and is identical to the value under a failing
service. -/
theorem empty_text_zero_vector_without_service_call_witness :
    generate_embedding (fun _ => EmbeddingServiceResponse.ok [1]) ""
        = List.replicate 1536 0
    ∧ generate_embedding (fun _ => EmbeddingServiceResponse.ok [1]) ""
        = generate_embedding
            (fun _ => EmbeddingServiceResponse.failure "down") "" :=
  empty_text_zero_vector_without_service_call
    (fun _ => EmbeddingServiceResponse.ok [1])
    (fun _ => EmbeddingServiceResponse.failure "down") "" (Or.inl rfl)

/-- Claim C6 (confirmed): the watermark advances only when the run ended in
success — the final status block announces the new timestamp only in the
success branch, a failed run leaves LAST_SUCCESSFUL_RUN unchanged — and
re-running the extraction planner on the unchanged watermark yields the
identical selection predicate, hence the identical selection. -/
theorem watermark_advances_only_on_success
    (LAST_SUCCESSFUL_RUN pipeline_end_time : String)
    (rows : List SourceRow) :
    next_incremental_run_timestamp false LAST_SUCCESSFUL_RUN pipeline_end_time
        = LAST_SUCCESSFUL_RUN
    ∧ next_incremental_run_timestamp true LAST_SUCCESSFUL_RUN
        pipeline_end_time = pipeline_end_time
    ∧ patients_sql_query true
        (next_incremental_run_timestamp false LAST_SUCCESSFUL_RUN
          pipeline_end_time)
        = patients_sql_query true LAST_SUCCESSFUL_RUN
    ∧ runQuery
        (patients_sql_query true
          (next_incremental_run_timestamp false LAST_SUCCESSFUL_RUN
            pipeline_end_time)) rows
        = runQuery (patients_sql_query true LAST_SUCCESSFUL_RUN) rows := by
  simp [next_incremental_run_timestamp]

/-- Claim C7 (confirmed): loading the same enriched record twice with the
same key values — the declared node.keys fields (id, mrn) for Patient
nodes, the (type, sourceKey, targetKey) triple for PRESCRIBED
relationships — leaves exactly one node/relationship in the store, and it
carries the latest property values: the keyed upsert updates in place and
never duplicates. The write options do not depend on the run mode, so
this holds identically in full and incremental runs. The graph-side upsert
semantics are modelled from the spec (upsertKeyed). -/
theorem keyed_upsert_idempotent
    (nodeStore : List PropMap) (p p' : PropMap)
    (relStore : List TargetRelationship) (r r' : TargetRelationship)
    (hpk : node_key_values patients_node_keys p'
      = node_key_values patients_node_keys p)
    (hpu : (nodeStore.filter (fun y =>
        decide (node_key_values patients_node_keys y
          = node_key_values patients_node_keys p))).length ≤ 1)
    (hrk : relationship_key r' = relationship_key r)
    (hru : (relStore.filter (fun y =>
        decide (relationship_key y = relationship_key r))).length ≤ 1) :
    ((writeKeyed (node_key_values patients_node_keys) nodeStore
        [p, p']).filter (fun y =>
          decide (node_key_values patients_node_keys y
            = node_key_values patients_node_keys p))).length = 1
    ∧ (∀ y ∈ writeKeyed (node_key_values patients_node_keys) nodeStore
          [p, p'],
        node_key_values patients_node_keys y
            = node_key_values patients_node_keys p
          → y = p')
    ∧ ((writeKeyed relationship_key relStore [r, r']).filter (fun y =>
          decide (relationship_key y = relationship_key r))).length = 1
    ∧ (∀ y ∈ writeKeyed relationship_key relStore [r, r'],
        relationship_key y = relationship_key r → y = r') := by
  obtain ⟨hn1, hn2⟩ := writeKeyed_twice_single
    (node_key_values patients_node_keys) nodeStore p p' hpk hpu
  obtain ⟨hr1, hr2⟩ := writeKeyed_twice_single relationship_key relStore
    r r' hrk hru
  exact ⟨hn1, hn2, hr1, hr2⟩

/-- Witness for Claim C7: writing the demo patient twice (updated
properties, same id and mrn) into an empty store leaves exactly one
matching node, and likewise for the demo PRESCRIBED relationship. -/
theorem keyed_upsert_idempotent_witness :
    ((writeKeyed (node_key_values patients_node_keys) []
        [demo_patient, demo_patient_updated]).filter (fun y =>
          decide (node_key_values patients_node_keys y
            = node_key_values patients_node_keys demo_patient))).length = 1
    ∧ ((writeKeyed relationship_key []
        [demo_prescription, demo_prescription_updated]).filter (fun y =>
          decide (relationship_key y
            = relationship_key demo_prescription))).length = 1 :=
  ⟨(keyed_upsert_idempotent [] demo_patient demo_patient_updated []
      demo_prescription demo_prescription_updated (by decide) (by decide)
      (by decide) (by decide)).1,
   (keyed_upsert_idempotent [] demo_patient demo_patient_updated []
      demo_prescription demo_prescription_updated (by decide) (by decide)
      (by decide) (by decide)).2.2.1⟩

/-- Claim C8 (code_bug): sql_query has no first-run handling — it splices
the last-run timestamp into the incremental WHERE clause unconditionally,
so an absent timestamp (rendered "None" by the f-string) does not fall
back to full mode: the ordinary row with
last_modified = created_at = "2025-01-02 00:00:00" is selected by the
full-mode query but rejected by the incremental query, whose comparison
against the literal "None" no datetime literal exceeds; the two queries
are not even the same predicate. This is the silent zero-row selection the
spec requires the planner to avoid. -/
theorem absent_watermark_is_not_full_mode :
    rowMatches
        (patients_sql_query true (formatLastRunTimestamp none)).wherePred
        ⟨"2025-01-02 00:00:00", "2025-01-02 00:00:00"⟩ = false
    ∧ rowMatches
        (patients_sql_query false (formatLastRunTimestamp none)).wherePred
        ⟨"2025-01-02 00:00:00", "2025-01-02 00:00:00"⟩ = true
    ∧ patients_sql_query true (formatLastRunTimestamp none)
        ≠ patients_sql_query false (formatLastRunTimestamp none) := by
  decide

/-- Claim C9 (confirmed): the "concurrent execution" branch of run_stage
computes exactly the same (success, results) as the sequential branch — it
iterates the units one at a time in declared order with the same
break-on-critical-failure behaviour — so the parallel flag and the
PARALLEL_EXECUTION setting never change run_stage's result. -/
theorem concurrent_branch_equals_sequential
    (dbrun : Notebook → Except String String) (dur : Notebook → Nat)
    (stage_name : String) (l : List Notebook)
    (PE PE' : Bool) (stage_config : StageConfig) :
    parallel_branch_loop dbrun dur stage_name l
        = sequential_branch_loop dbrun dur stage_name l
    ∧ run_stage PE dbrun dur stage_name stage_config
        = run_stage PE' dbrun dur stage_name stage_config := by
  refine ⟨parallel_loop_eq_sequential_loop dbrun dur stage_name l, ?_⟩
  rw [run_stage_eq_sequential, run_stage_eq_sequential]

/-- Claim C10 (confirmed): for every run, the persisted metadata satisfies
notebooks_succeeded + notebooks_failed = notebooks_executed, and the run
status is "success" exactly when every recorded unit result has
success = true, equivalently exactly when notebooks_failed = 0. -/
theorem etl_metadata_invariants (PARALLEL_EXECUTION : Bool)
    (dbrun : Notebook → Except String String) (dur : Notebook → Nat)
    (stages : List (String × StageConfig)) :
    notebooks_succeeded
        (pipeline_loop PARALLEL_EXECUTION dbrun dur stages).2
      + notebooks_failed (pipeline_loop PARALLEL_EXECUTION dbrun dur stages).2
      = notebooks_executed (pipeline_loop PARALLEL_EXECUTION dbrun dur stages).2
    ∧ (run_status (pipeline_loop PARALLEL_EXECUTION dbrun dur stages).1
          = "success"
        ↔ notebooks_failed (pipeline_loop PARALLEL_EXECUTION dbrun dur stages).2
            = 0)
    ∧ (run_status (pipeline_loop PARALLEL_EXECUTION dbrun dur stages).1
          = "success"
        ↔ ∀ s ∈ (pipeline_loop PARALLEL_EXECUTION dbrun dur stages).2,
            ∀ r ∈ s.2.results, r.success = true) := by
  refine ⟨counts_partition _, ?_, ?_⟩
  · rw [run_status_success_iff]
    exact pipeline_success_iff_no_failed PARALLEL_EXECUTION dbrun dur stages
  · rw [run_status_success_iff,
      pipeline_success_iff_no_failed PARALLEL_EXECUTION dbrun dur stages,
      notebooks_failed_zero_iff]
